import Mathlib

/-!
Shallow embedding of `techies-validator-backend` (`src/server.js` and the
README-documented batch endpoint) and proofs about the claims of the
specification.

Modelling conventions:
* JavaScript `Date` arithmetic is embedded over integer milliseconds.
  `new Date(s)` for a string `s` is abstracted by a parameter
  `parse : String → Option Int` (`none` models an `Invalid Date`, i.e.
  `isNaN(d.getTime())`); `new Date()` is the parameter `nowMs : Int`.
* The JS code computes `diffHours = diffMs / 3600000` and
  `diffDays = Math.floor(diffMs / 86400000)` in double precision.  For the
  range a JS `Date` can represent (|ms| ≤ 8.64e15 < 2^53) the double
  rounding never crosses any comparison or floor the code performs, so the
  embedding uses the exact integer equivalents:
  `diffHours ≤ 1 ↔ diffMs ≤ 3600000`, `diffHours ≤ 24 ↔ diffMs ≤ 86400000`,
  `Math.floor(diffMs / 86400000) = diffMs / 86400000` (integer floor
  division; `diffMs ≥ 0` on that path).
* `x.toFixed(d)` (ECMA-262: round to nearest multiple of 10^-d, ties away
  from zero on the magnitude) applied to `diffMs / 3600000` is embedded
  exactly as the integer `(2 * diffMs + 10^-d-step) / (2 * step)`, see
  `tenthsOfHours` / `centisOfHours`.  `postAgeHours` (the double
  `parseFloat(diffHours.toFixed(2))`) is stored exactly as
  `postAgeHoursCentis` = 100 × postAgeHours, an integer.
* JS falsiness of an optional string (`!x`, `x || y`) is `none` or
  `some ""`.
-/

/-- JS string fallback `o || d`: `undefined`, `null` and `""` are falsy. -/
def jsOrS (o : Option String) (d : String) : String :=
  match o with
  | some s => if s = "" then d else s
  | none => d

/-- JS template interpolation of a number-or-null value (prints `null`). -/
def jsShowOptInt (o : Option Int) : String :=
  match o with
  | some d => toString d
  | none => "null"

/-- `(diffMs / 3600000).toFixed(1)` in tenths: round to nearest tenth of an
hour, ties away from zero; exact for `diffMs ≥ 0` (the only reachable
case). -/
def tenthsOfHours (diffMs : Int) : Int :=
  (2 * diffMs + 360000) / 720000

/-- `parseFloat((diffMs / 3600000).toFixed(2))` in hundredths: round to the
nearest hundredth of an hour, ties away from zero; exact for
`diffMs ≥ 0` (the only reachable case). -/
def centisOfHours (diffMs : Int) : Int :=
  (2 * diffMs + 36000) / 72000

/-- Decimal rendering of a tenths value, as `toFixed(1)` prints it
(e.g. `25` ↦ `"2.5"`). -/
def showTenths (t : Int) : String :=
  toString (t / 10) ++ "." ++ toString (t % 10)

/-- The freshness record returned by `calculateLeadFreshness`
(`src/server.js`).  `none` models JS `null`.  `postAgeHoursCentis` stores
100 × the JS `postAgeHours` double exactly (see the file header). -/
structure FreshnessResult where
  isFresh : Option Bool
  daysOld : Option Int
  postAgeHoursCentis : Option Int
  timestamp : Option String
  status : String
  scrapedData : Bool
deriving Repr, DecidableEq

/-- `calculateLeadFreshness(posted_at_iso)` of `src/server.js` lines 35-124.
`parse` abstracts `new Date(string)` (→ ms since epoch, `none` = invalid
date), `nowMs` abstracts `new Date()`.  Nothing inside the JS `try` block
can throw (`new Date`, arithmetic and `toFixed` are total), so the `catch`
branch (`"Unknown - Calculation error"`) is unreachable and the embedding
is the body of the `try`. -/
def calculateLeadFreshness (parse : String → Option Int) (nowMs : Int)
    (posted_at_iso : Option String) : FreshnessResult :=
  match posted_at_iso with
  | none =>
    { isFresh := none, daysOld := none, postAgeHoursCentis := none,
      timestamp := none, status := "Unknown - No post date available",
      scrapedData := false }
  | some s =>
    if s = "" then
      { isFresh := none, daysOld := none, postAgeHoursCentis := none,
        timestamp := none, status := "Unknown - No post date available",
        scrapedData := false }
    else
      match parse s with
      | none =>
        { isFresh := none, daysOld := none, postAgeHoursCentis := none,
          timestamp := some s, status := "Unknown - Invalid date format",
          scrapedData := false }
      | some postedMs =>
        if nowMs < postedMs then
          { isFresh := some true, daysOld := some 0,
            postAgeHoursCentis := some 0, timestamp := some s,
            status := "Fresh - Posted today or future scheduled",
            scrapedData := true }
        else
          let diffMs : ℤ := nowMs - postedMs
          let diffDays : ℤ := diffMs / 86400000
          let isFresh : Bool := decide (diffMs ≤ 86400000)
          let status : String :=
            if diffMs ≤ 3600000 then
              "Fresh - Posted within the last hour"
            else if diffMs ≤ 86400000 then
              "Fresh - Posted " ++ showTenths (tenthsOfHours diffMs) ++
                " hours ago"
            else if diffDays = 1 then
              "Stale - Posted 1 day ago"
            else if diffDays ≤ 7 then
              "Stale - Posted " ++ toString diffDays ++ " days ago"
            else if diffDays ≤ 30 then
              "Stale - Posted " ++ toString diffDays ++ " days ago (" ++
                toString (diffDays / 7) ++ " weeks)"
            else
              "Stale - Posted " ++ toString diffDays ++ " days ago (" ++
                toString (diffDays / 30) ++ " months)"
          { isFresh := some isFresh, daysOld := some diffDays,
            postAgeHoursCentis := some (centisOfHours diffMs),
            timestamp := some s, status := status, scrapedData := true }

/-- Expected shape of the model-produced verdict JSON (spec §3), as
consumed by the enrichment merge in `analyzeHandler`. -/
structure Verdict where
  verdict : String
  reasoning : String
  confidence : Int
  key_factors : List String
  red_flags : List String
  opportunity_score : Int
  recommended_action : String
deriving Repr, DecidableEq

/-- `enrichedResponse` shape: the verdict plus the attached freshness
record (spec §3 EnrichedVerdict). -/
structure EnrichedVerdict extends Verdict where
  freshness : FreshnessResult
deriving Repr, DecidableEq

/-- The enrichment merge of `analyzeHandler` (`src/server.js` lines
320-333): spread of `aiResponse`, `freshness` attached, and `verdict`,
`reasoning`, `red_flags` overridden when `freshnessData.isFresh === false`.
The JS guard `aiResponse.red_flags || []` is the identity on a present
array (a JS array, even empty, is truthy), which is the only case
representable in the typed `Verdict`. -/
def enrich (aiResponse : Verdict) (freshnessData : FreshnessResult) :
    EnrichedVerdict :=
  { verdict :=
      if freshnessData.isFresh = some false then "BAD"
      else aiResponse.verdict
    reasoning :=
      if freshnessData.isFresh = some false then
        "[AUTO REJECTED: Post is " ++ jsShowOptInt freshnessData.daysOld ++
          " days old - exceeds 24-hour freshness requirement] " ++
          aiResponse.reasoning
      else aiResponse.reasoning
    confidence := aiResponse.confidence
    key_factors := aiResponse.key_factors
    red_flags :=
      if freshnessData.isFresh = some false then
        aiResponse.red_flags ++
          ["Lead is " ++ jsShowOptInt freshnessData.daysOld ++
            " days old - exceeds freshness threshold"]
      else aiResponse.red_flags
    opportunity_score := aiResponse.opportunity_score
    recommended_action := aiResponse.recommended_action
    freshness := freshnessData }

/-- `fetchResults.rawData` sub-record of a lead: the fields `buildPrompt`
and `analyzeHandler` read from it. -/
structure RawData where
  posted_at_iso : Option String
  postText : Option String
  previousPosts : Option (List String)
deriving Repr, DecidableEq

/-- `lead.fetchResults` sub-record: the fields `buildPrompt` reads. -/
structure FetchResults where
  rawData : Option RawData
  postText : Option String
  previousPosts : Option (List String)
deriving Repr, DecidableEq

/-- A lead record, restricted to the keys `buildPrompt` and
`analyzeHandler` access (`lead['Company Name']`, ..., `lead.fetchResults`).
Each key may be absent (`none`) or present. -/
structure Lead where
  companyName : Option String
  industryType : Option String
  phoneNumber : Option String
  address1Long : Option String
  address1 : Option String
  address2Long : Option String
  address2 : Option String
  postCodeLong : Option String
  postCode : Option String
  leadStatement : Option String
  leadProofUrl : Option String
  county : Option String
  oldAddress : Option String
  fetchResults : Option FetchResults
deriving Repr, DecidableEq

/-- `lead?.fetchResults?.rawData?.previousPosts ||
lead?.fetchResults?.previousPosts || []` (`src/server.js` line 128).  A JS
array, even empty, is truthy, so a present `rawData.previousPosts` is
always selected. -/
def effectivePosts (lead : Lead) : List String :=
  match (lead.fetchResults.bind (·.rawData)).bind (·.previousPosts) with
  | some l => l
  | none => (lead.fetchResults.bind (·.previousPosts)).getD []

/-- `posts.map((post, idx) => idx+1 + ". " + post)` with explicit starting
index (`idx` starts at 0, so the printed numbers start at 1). -/
def numberPosts : Nat → List String → List String
  | _, [] => []
  | i, p :: ps => (toString (i + 1) ++ ". " ++ p) :: numberPosts (i + 1) ps

/-- `formattedPosts` of `buildPrompt` (`src/server.js` lines 130-132):
first 10 posts as a numbered list joined with newline-and-indent, or the
literal fallback when the list is empty. -/
def formatPreviousPosts (previousPosts : List String) : String :=
  if previousPosts.length > 0 then
    String.intercalate "\n  " (numberPosts 0 (previousPosts.take 10))
  else
    "No previous posts available"

/-- `postCaption` of `buildPrompt` (`src/server.js` line 135). -/
def postCaption (lead : Lead) : String :=
  jsOrS ((lead.fetchResults.bind (·.rawData)).bind (·.postText))
    (jsOrS (lead.fetchResults.bind (·.postText)) "Not provided")

/-- `lead['Phone Number'] ? 'Provided (' + lead['Phone Number'] + ')' :
'Missing'` (`src/server.js` line 142). -/
def phoneField (o : Option String) : String :=
  match o with
  | some s => if s = "" then "Missing" else "Provided (" ++ s ++ ")"
  | none => "Missing"

/-- The fixed template text of `buildPrompt` from `VALIDATION CONTEXT:` to
the end (`src/server.js` lines 154-266); it contains no interpolation.
Literal braces of the JSON schema are written with hex escapes. -/
def promptTail : String :=
  "VALIDATION CONTEXT:
You're evaluating leads for a UK-based B2B service company. Good leads are:
- New businesses or grand openings (Note: freshness is calculated automatically by the system)
- Business relocations or expansions to new locations
- New ownership/management changes
- Businesses that genuinely need B2B services (restaurants, retail shops, offices, salons, etc.)
- Must have phone numbers for contact
- Must be in serviceable UK locations

SEMANTIC INDICATORS TO LOOK FOR IN POST CAPTION:
✓ New business: \"grand opening\", \"now open\", \"officially open\", \"opening soon\", \"soft opening\"
✓ Relocation: \"new location\", \"we've moved\", \"relocated to\", \"moving to\", \"new address\", \"new premises\"
✓ New ownership: \"under new management\", \"new owner\", \"taken over\", \"new ownership\"
✓ Business context: Must mention the business itself is new/moving, not just a product/service

POSTING HISTORY ANALYSIS:
✓ New business page: Few total posts (< 20), irregular posting, recently created
✓ Established business: Many posts (> 50), regular posting history, consistent engagement

Bad leads are:
- Education sector (schools, academies, nurseries, tutoring centers, training centers)
- Businesses that have been open for months/years already
- Non-commercial entities (churches, charities, personal blogs, family businesses)
- Locations outside UK mainland or in banned areas (Ireland, Northern Ireland, Guernsey, Jersey, Isle of Man)
- Businesses clearly not needing B2B services
- Missing essential contact information

MINOR UPDATES TO REJECT (Not new businesses):
✗ New products/services: \"new menu\", \"new items\", \"new pricelist\", \"new services\", \"new offers\"
✗ Cosmetic changes: \"new decor\", \"new look\", \"renovated\", \"refurbished\", \"new paint\"
✗ Partial expansions: \"upstairs only\", \"new section\", \"new floor\", \"expansion area\"
✗ Equipment/furniture: \"new equipment\", \"new furniture\", \"new stand\", \"new display\"
✗ Referrals to other businesses: \"check out [other business]\", \"shoutout to\", \"visit our friends\"
✗ Staff changes only: \"new staff\", \"new team member\" (unless combined with \"new ownership\")

CRITICAL FACTORS TO CONSIDER:
1. Caption Analysis (50% weight):
   - Does the post caption explicitly mention the BUSINESS is new/opening/relocating?
   - Is it just announcing a minor update (new product/menu/pricelist)?
   - Look for opening/relocation keywords vs. product update keywords

2. Post History Analysis (50% weight):
   - How many total previous posts exist?
   - Is this a brand new page (< 20 posts) or established (> 50 posts)?
   - Does posting pattern suggest new business or regular updates from existing business?

3. Combined Signal:
   - GOOD: Opening keywords + sparse post history (new business)
   - GOOD: Relocation keywords + established history (existing business moving)
   - BAD: Product update keywords + established history (just a new menu item)
   - BAD: Opening keywords + 100+ posts (likely false positive)

4. Business Type: Does this business type typically need B2B services?
5. Contact Info: Can they actually be reached for sales outreach?
6. Location: Is this in a serviceable UK area?
7. Opportunity Quality: How likely is this to convert to a sale?

(Note: Freshness checking is handled automatically by the system - focus on business quality analysis)

EXAMPLE SCENARIOS:

GOOD LEADS:
- \"Grand opening this Saturday! Come visit our new restaurant at 123 Main St\"
  → Caption: Opening keywords ✓, Post history: 5 posts (new page) ✓ → GOOD

- \"We've relocated! Find us at our new premises on Oak Road\"
  → Caption: Relocation keywords ✓, Post history: 80 posts (established) ✓ → GOOD

- \"Under new management! The cafe has been taken over and we're excited to serve you\"
  → Caption: New ownership keywords ✓ → GOOD

BAD LEADS:
- \"Check out our new menu! Fresh items added this week\"
  → Caption: Product update ✗, Post history: 200 posts ✗ → BAD

- \"New pricelist for 2024! Updated rates below\"
  → Caption: Pricelist update ✗ → BAD

- \"Our new store stand looks amazing! Come see the display\"
  → Caption: Equipment update ✗ (stand only, not business) → BAD

- \"Upstairs section now open! More seating available\"
  → Caption: Partial expansion ✗ (not full opening) → BAD

- \"Shoutout to [Business Name] for their grand opening!\"
  → Caption: Referring to other business ✗ → BAD

Analyze this lead carefully and provide your assessment in json format:

\x7b
  \"verdict\": \"GOOD\" | \"BAD\" | \"UNCLEAR\",
  \"reasoning\": \"Detailed explanation focusing on caption analysis, post history, timing, and business type\",
  \"confidence\": 85,
  \"key_factors\": [\"Primary reasons for this verdict\"],
  \"red_flags\": [\"Any concerns or negative indicators\"],
  \"opportunity_score\": 75,
  \"recommended_action\": \"Specific next step recommendation\",
  \"caption_analysis\": \x7b
    \"has_opening_keywords\": true/false,
    \"has_relocation_keywords\": true/false,
    \"has_ownership_keywords\": true/false,
    \"has_minor_update_keywords\": true/false,
    \"summary\": \"Brief analysis of what the caption indicates\"
  \x7d,
  \"post_history_analysis\": \x7b
    \"total_posts\": 142,
    \"page_maturity\": \"new\" | \"established\" | \"unknown\",
    \"posting_pattern\": \"Brief description of posting pattern if discernible\",
    \"assessment\": \"Is this likely a new business page or existing business?\"
  \x7d
\x7d

Your entire response MUST ONLY be a single, valid json object. DO NOT respond with anything other than json."

/-- The interpolated part of the `buildPrompt` template up to and
including the `\n  ` that precedes `formattedPosts`
(`src/server.js` lines 137-152). -/
def promptLeadSection (lead : Lead) : String :=
  "You are an expert business lead validator. Analyze this business lead and determine if it's a good prospect for a UK-based B2B sales team.\n\nLEAD DATA:\n- Company Name: " ++
    jsOrS lead.companyName "Not provided" ++
  "\n- Industry Type: " ++ jsOrS lead.industryType "Not provided" ++
  "\n- Phone Number: " ++ phoneField lead.phoneNumber ++
  "\n- Location: " ++ jsOrS lead.address2Long (jsOrS lead.address2 "Not provided") ++
    ", " ++ jsOrS lead.postCodeLong (jsOrS lead.postCode "No postcode") ++
  "\n- Address: " ++ jsOrS lead.address1Long (jsOrS lead.address1 "Not provided") ++
  "\n- Lead Statement: " ++ jsOrS lead.leadStatement "Not provided" ++
  "\n- Proof URL: " ++ jsOrS lead.leadProofUrl "Not provided" ++
  "\n- County: " ++ jsOrS lead.county "Not provided" ++
  "\n- Old Address: " ++ jsOrS lead.oldAddress "Not provided" ++
  "\n- Posted At: " ++
    jsOrS ((lead.fetchResults.bind (·.rawData)).bind (·.posted_at_iso)) "Not provided" ++
  "\n- Post Caption/Text: " ++ postCaption lead ++
  "\n- Previous Posts (Total: " ++ toString (effectivePosts lead).length ++
    "):\n  "

/-- `buildPrompt(lead)` of `src/server.js` lines 126-267: the interpolated
lead-data section, the formatted previous-posts block, and the fixed
`promptTail`. -/
def buildPrompt (lead : Lead) : String :=
  promptLeadSection lead ++ formatPreviousPosts (effectivePosts lead) ++
    ("\n\n" ++ promptTail)

/-- The response an Express handler sends: either
`res.json(\x7bcontent: [\x7btext: JSON.stringify(enriched)\x7d]\x7d)` (the
success shape, kept structured here as the enriched verdict it
serializes) or `res.status(s).json(\x7berror, details?\x7d)`. -/
inductive HandlerResponse where
  | jsonOk (enriched : EnrichedVerdict)
  | jsonErr (status : Nat) (error : String) (details : Option String)
deriving Repr, DecidableEq

/-- Whether the handler response is an HTTP error response. -/
def HandlerResponse.isError : HandlerResponse → Bool
  | .jsonOk _ => false
  | .jsonErr _ _ _ => true

/-- Whether the handler response is a success response whose verdict field
is the string `UNCLEAR`. -/
def HandlerResponse.isUnclearSuccess : HandlerResponse → Bool
  | .jsonOk e => e.verdict == "UNCLEAR"
  | .jsonErr _ _ _ => false

/-- `analyzeHandler` of `src/server.js` lines 269-341.  Parameters
abstract the request and the collaborators:
* `parseBody raw` — `JSON.parse(raw)` followed by the optional-chain read
  `data?.choices?.[0]?.message?.content`: `none` means `JSON.parse` threw
  (the exception reaches the handler's `catch`, line 337); `some c` means
  the body parsed, `c` being the content string when the path is present;
* `parseVerdict t` — `JSON.parse(t)` of the content text into the typed
  verdict: `none` means `JSON.parse` threw;
* `parse`, `nowMs` — as in `calculateLeadFreshness`;
* `lead` — `req.body.lead` (`none` when absent or falsy; a JS object is
  always truthy);
* `apiKey` — `process.env.OPENAI_API_KEY` (falsy when absent or empty);
* `upstreamOk`, `upstreamStatus`, `raw` — `r.ok`, `r.status`,
  `await r.text()` of the upstream fetch. -/
def analyzeHandler
    (parseBody : String → Option (Option String))
    (parseVerdict : String → Option Verdict)
    (parse : String → Option Int) (nowMs : Int)
    (lead : Option Lead) (apiKey : Option String)
    (upstreamOk : Bool) (upstreamStatus : Nat) (raw : String) :
    HandlerResponse :=
  match lead with
  | none => .jsonErr 400 "Lead data is required." none
  | some lead =>
    if apiKey = none ∨ apiKey = some "" then
      .jsonErr 500 "Missing OPENAI_API_KEY on server." none
    else if upstreamOk = false then
      .jsonErr upstreamStatus "OpenAI API error" (some raw)
    else
      match parseBody raw with
      | none => .jsonErr 500 "Failed to get AI analysis." none
      | some content =>
        let text := content.getD "\x7b\x7d"
        match parseVerdict text with
        | none => .jsonErr 500 "Failed to get AI analysis." none
        | some aiResponse =>
          let posted_at_iso :=
            (lead.fetchResults.bind (·.rawData)).bind (·.posted_at_iso)
          let freshnessData := calculateLeadFreshness parse nowMs posted_at_iso
          .jsonOk (enrich aiResponse freshnessData)

/-- Modelled from the spec: the `POST /analyze-batch` handler is code of
this repository that is not under `src/` (the README, `src/unnamed/part_000`,
documents the endpoint and its `MAX_CONCURRENCY` / `PER_REQUEST_DELAY_MS`
configuration, but no implementation file is present).  Spec §4.5:
`analyzeBatch(leads, concurrencyCap, interTaskDelay)` runs at most
`concurrencyCap` analyses concurrently and collects results positionally,
not as a race.  Execution is modelled by the order in which the individual
analyses complete: each completion writes `(index, result)` into a result
store, and the batch result is read back positionally, index `0` to
`n - 1`.  `concurrencyCap` and `delayMs` only constrain the timing — hence
which completion orders can occur — and do not enter the positional
collection. -/
def analyzeBatch (concurrencyCap delayMs : Nat)
    (analyze : Lead → EnrichedVerdict) (leads : List Lead)
    (completionOrder : List (Fin leads.length)) :
    List (Nat × Option EnrichedVerdict) :=
  let writes := completionOrder.map fun i => (i.val, analyze (leads.get i))
  (List.range leads.length).map fun i => (i, writes.lookup i)

/-- Looking up an index in the write store finds that task's own result:
all writes for an index carry the value produced by that index's task. -/
theorem lookup_writes {β : Type} {n : Nat} (f : Fin n → β)
    (l : List (Fin n)) (k : Fin n) (h : k ∈ l) :
    (l.map fun i => (i.val, f i)).lookup k.val = some (f k) := by
  induction l with
  | nil => cases h
  | cons a t ih =>
    simp only [List.map_cons, List.lookup]
    by_cases he : k.val = a.val
    · have hk : k = a := Fin.ext he
      subst hk
      simp
    · have hb : (k.val == a.val) = false := by
        simp [he]
      rw [hb]
      rcases List.mem_cons.mp h with h1 | h2
      · exact absurd (congrArg Fin.val h1) he
      · exact ih h2

/-- A concrete model verdict used to instantiate theorems. -/
def sampleVerdict : Verdict :=
  { verdict := "GOOD", reasoning := "strong signal", confidence := 85,
    key_factors := ["new opening"], red_flags := [],
    opportunity_score := 75, recommended_action := "Call them" }

/-- A concrete stale freshness record (9 days old). -/
def staleFreshness : FreshnessResult :=
  { isFresh := some false, daysOld := some 9,
    postAgeHoursCentis := some 21600,
    timestamp := some "2024-01-01T00:00:00Z",
    status := "Stale - Posted 9 days ago (1 weeks)", scrapedData := true }

/-- A concrete fresh freshness record. -/
def freshFreshness : FreshnessResult :=
  { isFresh := some true, daysOld := some 0, postAgeHoursCentis := some 50,
    timestamp := some "2024-01-01T00:00:00Z",
    status := "Fresh - Posted within the last hour", scrapedData := true }

/-- A lead with every key absent. -/
def emptyLead : Lead :=
  { companyName := none, industryType := none, phoneNumber := none,
    address1Long := none, address1 := none, address2Long := none,
    address2 := none, postCodeLong := none, postCode := none,
    leadStatement := none, leadProofUrl := none, county := none,
    oldAddress := none, fetchResults := none }

/-- C1: for every upstream verdict `V` and freshness result `F` with
`F.isFresh === false`, the enrichment merge returns `verdict = "BAD"`
regardless of `V.verdict`, the reasoning equal to the auto-reject tag
(interpolating `F.daysOld`) followed by `V.reasoning`, and
`red_flags = V.red_flags` with exactly one extra entry appended at the
end. -/
theorem enrich_stale_overrides (V : Verdict) (F : FreshnessResult)
    (h : F.isFresh = some false) :
    (enrich V F).verdict = "BAD" ∧
    (enrich V F).reasoning =
      "[AUTO REJECTED: Post is " ++ jsShowOptInt F.daysOld ++
        " days old - exceeds 24-hour freshness requirement] " ++
        V.reasoning ∧
    (enrich V F).red_flags =
      V.red_flags ++
        ["Lead is " ++ jsShowOptInt F.daysOld ++
          " days old - exceeds freshness threshold"] := by
  refine ⟨?_, ?_, ?_⟩ <;> simp [enrich, h]

theorem enrich_stale_overrides_witness :
    (enrich sampleVerdict staleFreshness).verdict = "BAD" ∧
    (enrich sampleVerdict staleFreshness).reasoning =
      "[AUTO REJECTED: Post is 9 days old - exceeds 24-hour freshness requirement] strong signal" ∧
    (enrich sampleVerdict staleFreshness).red_flags =
      ["Lead is 9 days old - exceeds freshness threshold"] := by
  have h := enrich_stale_overrides sampleVerdict staleFreshness (by decide)
  refine ⟨h.1, h.2.1.trans (by decide), h.2.2.trans (by decide)⟩

/-- C2: for every upstream verdict `V` and freshness result `F` with
`F.isFresh !== false` (true or unknown), the enrichment merge returns `V`
with every field unchanged and only the `freshness` field attached. -/
theorem enrich_passthrough (V : Verdict) (F : FreshnessResult)
    (h : F.isFresh ≠ some false) :
    enrich V F = { toVerdict := V, freshness := F } := by
  simp [enrich, h]

theorem enrich_passthrough_witness :
    enrich sampleVerdict freshFreshness =
      { toVerdict := sampleVerdict, freshness := freshFreshness } :=
  enrich_passthrough sampleVerdict freshFreshness (by decide)

/-- C3: the freshness calculation is total by construction (the embedding
is a Lean function defined on every input), and every non-empty string
whose parse fails yields the well-formed invalid-format record: all
numeric fields unknown, the raw input echoed in `timestamp`, and
`scrapedData = false`. -/
theorem calculateLeadFreshness_invalid_format
    (parse : String → Option Int) (nowMs : Int) (s : String)
    (hs : s ≠ "") (hp : parse s = none) :
    calculateLeadFreshness parse nowMs (some s) =
      { isFresh := none, daysOld := none, postAgeHoursCentis := none,
        timestamp := some s, status := "Unknown - Invalid date format",
        scrapedData := false } := by
  simp [calculateLeadFreshness, hs, hp]

theorem calculateLeadFreshness_invalid_format_witness :
    calculateLeadFreshness (fun _ => none) 1704844800000
        (some "definitely not a date") =
      { isFresh := none, daysOld := none, postAgeHoursCentis := none,
        timestamp := some "definitely not a date",
        status := "Unknown - Invalid date format", scrapedData := false } :=
  calculateLeadFreshness_invalid_format (fun _ => none) 1704844800000
    "definitely not a date" (by decide) rfl

/-- C7: for every absent or empty timestamp (JS `null`, `undefined` or
`""`, all falsy), the freshness calculation returns the no-date record:
all fields unknown, the no-date status, and `scrapedData = false`. -/
theorem calculateLeadFreshness_no_date
    (parse : String → Option Int) (nowMs : Int) (inp : Option String)
    (h : inp = none ∨ inp = some "") :
    calculateLeadFreshness parse nowMs inp =
      { isFresh := none, daysOld := none, postAgeHoursCentis := none,
        timestamp := none, status := "Unknown - No post date available",
        scrapedData := false } := by
  rcases h with h | h <;> subst h <;> simp [calculateLeadFreshness]

theorem calculateLeadFreshness_no_date_witness :
    calculateLeadFreshness (fun _ => some 0) 1704844800000 none =
      { isFresh := none, daysOld := none, postAgeHoursCentis := none,
        timestamp := none, status := "Unknown - No post date available",
        scrapedData := false } :=
  calculateLeadFreshness_no_date (fun _ => some 0) 1704844800000 none
    (Or.inl rfl)

/-- C8: for every non-empty timestamp string that parses to an instant
strictly after `now`, the freshness calculation returns
`isFresh = true`, `daysOld = 0`, `postAgeHours = 0`, the
future-scheduled status, and `scrapedData = true`. -/
theorem calculateLeadFreshness_future
    (parse : String → Option Int) (nowMs : Int) (s : String) (p : Int)
    (hs : s ≠ "") (hp : parse s = some p) (hf : nowMs < p) :
    calculateLeadFreshness parse nowMs (some s) =
      { isFresh := some true, daysOld := some 0,
        postAgeHoursCentis := some 0, timestamp := some s,
        status := "Fresh - Posted today or future scheduled",
        scrapedData := true } := by
  simp [calculateLeadFreshness, hs, hp, hf]

theorem calculateLeadFreshness_future_witness :
    calculateLeadFreshness (fun _ => some 1704844800001) 1704844800000
        (some "2024-01-10T00:00:00.001Z") =
      { isFresh := some true, daysOld := some 0,
        postAgeHoursCentis := some 0,
        timestamp := some "2024-01-10T00:00:00.001Z",
        status := "Fresh - Posted today or future scheduled",
        scrapedData := true } :=
  calculateLeadFreshness_future (fun _ => some 1704844800001) 1704844800000
    "2024-01-10T00:00:00.001Z" 1704844800001 (by decide) rfl (by decide)

/-- Parse table for the C5 scenario: `Date.parse("2024-01-01T00:00:00Z")`
is 1704067200000 ms; the `now` of the scenario,
`"2024-01-10T00:00:00Z"`, is 1704844800000 ms. -/
def scenarioParse : String → Option Int := fun s =>
  if s = "2024-01-01T00:00:00Z" then some 1704067200000 else none

/-- C5 (counterexample): at the scenario input (post 2024-01-01, now
2024-01-10) the status is not the claimed `"Stale - Posted 9 days ago"`:
9 days falls in the `diffDays <= 30` branch, which appends the week
count. -/
theorem freshness_nine_days_status_cex :
    (calculateLeadFreshness scenarioParse 1704844800000
        (some "2024-01-01T00:00:00Z")).status ≠
      "Stale - Posted 9 days ago" := by decide

/-- C5 (amended): for the input timestamp `"2024-01-01T00:00:00Z"` with
now = `"2024-01-10T00:00:00Z"`, the freshness calculation returns
`isFresh = false`, `daysOld = 9` and status exactly
`"Stale - Posted 9 days ago (1 weeks)"`. -/
theorem freshness_nine_days_scenario :
    calculateLeadFreshness scenarioParse 1704844800000
        (some "2024-01-01T00:00:00Z") =
      { isFresh := some false, daysOld := some 9,
        postAgeHoursCentis := some 21600,
        timestamp := some "2024-01-01T00:00:00Z",
        status := "Stale - Posted 9 days ago (1 weeks)",
        scrapedData := true } := by decide

/-- C10: on every branch of the freshness calculation, `scrapedData` is
true iff `isFresh` is non-null; when `scrapedData` is false both numeric
age fields are null; and when `scrapedData` is true `daysOld` is an
integer ≥ 0, `postAgeHours` ≥ 0 (stored as hundredths), and `timestamp`
echoes the input string. -/
theorem calculateLeadFreshness_invariant
    (parse : String → Option Int) (nowMs : Int) (inp : Option String) :
    ((calculateLeadFreshness parse nowMs inp).scrapedData = true ↔
      (calculateLeadFreshness parse nowMs inp).isFresh ≠ none) ∧
    ((calculateLeadFreshness parse nowMs inp).scrapedData = false →
      (calculateLeadFreshness parse nowMs inp).daysOld = none ∧
      (calculateLeadFreshness parse nowMs inp).postAgeHoursCentis = none) ∧
    ((calculateLeadFreshness parse nowMs inp).scrapedData = true →
      (∃ d, (calculateLeadFreshness parse nowMs inp).daysOld = some d ∧
        0 ≤ d) ∧
      (∃ c, (calculateLeadFreshness parse nowMs inp).postAgeHoursCentis =
        some c ∧ 0 ≤ c) ∧
      (calculateLeadFreshness parse nowMs inp).timestamp = inp) := by
  rcases inp with _ | s
  · simp [calculateLeadFreshness]
  by_cases hs : s = ""
  · simp [calculateLeadFreshness, hs]
  rcases hp : parse s with _ | p
  · simp [calculateLeadFreshness, hs, hp]
  by_cases hf : nowMs < p
  · simp [calculateLeadFreshness, hs, hp, hf]
  · have hms : (0 : ℤ) ≤ nowMs - p := by omega
    refine ⟨?_, ?_, ?_⟩ <;> simp [calculateLeadFreshness, hs, hp, hf]
    constructor
    · exact Int.ediv_nonneg hms (by omega)
    · exact Int.ediv_nonneg (by omega) (by omega)

theorem calculateLeadFreshness_invariant_witness :
    (calculateLeadFreshness scenarioParse 1704844800000
        (some "2024-01-01T00:00:00Z")).scrapedData = true ↔
      (calculateLeadFreshness scenarioParse 1704844800000
        (some "2024-01-01T00:00:00Z")).isFresh ≠ none :=
  (calculateLeadFreshness_invariant scenarioParse 1704844800000
    (some "2024-01-01T00:00:00Z")).1

/-- Body-parse model for the C4 counterexample: the literal body
`"not json"` makes `JSON.parse` throw; any other body parses with the
content path absent. -/
def bodyParseCex : String → Option (Option String) := fun s =>
  if s = "not json" then none else some none

/-- C4 (counterexample): with the lead and API key present and the
upstream call successful but its body not valid JSON, the handler returns
the 500 error response of its `catch` (`src/server.js` lines 337-340) —
an error response to the caller, and not a substituted degraded
`UNCLEAR` verdict. -/
theorem analyzeHandler_parse_failure_cex :
    analyzeHandler bodyParseCex (fun _ => some sampleVerdict)
        (fun _ => none) 0 (some emptyLead) (some "sk-test") true 200
        "not json" =
      .jsonErr 500 "Failed to get AI analysis." none ∧
    HandlerResponse.isError
      (analyzeHandler bodyParseCex (fun _ => some sampleVerdict)
        (fun _ => none) 0 (some emptyLead) (some "sk-test") true 200
        "not json") = true ∧
    HandlerResponse.isUnclearSuccess
      (analyzeHandler bodyParseCex (fun _ => some sampleVerdict)
        (fun _ => none) 0 (some emptyLead) (some "sk-test") true 200
        "not json") = false := by
  refine ⟨by decide, by decide, by decide⟩

/-- C4 (amended): when the lead and API key are present, the upstream call
succeeded, and either `JSON.parse` of the response body or `JSON.parse` of
the extracted content text throws, the handler catches the failure and
returns the 500 response `'Failed to get AI analysis.'`; the parse
failure never escapes as an unhandled fault, but the caller receives an
error response, not a degraded `UNCLEAR` verdict. -/
theorem analyzeHandler_parse_failure_500
    (parseBody : String → Option (Option String))
    (parseVerdict : String → Option Verdict)
    (parse : String → Option Int) (nowMs : Int) (lead : Lead)
    (apiKey : String) (hk : apiKey ≠ "") (upstreamStatus : Nat)
    (raw : String)
    (h : parseBody raw = none ∨
      ∃ c, parseBody raw = some c ∧ parseVerdict (c.getD "\x7b\x7d") = none) :
    analyzeHandler parseBody parseVerdict parse nowMs (some lead)
        (some apiKey) true upstreamStatus raw =
      .jsonErr 500 "Failed to get AI analysis." none := by
  rcases h with h | ⟨c, h1, h2⟩
  · simp [analyzeHandler, hk, h]
  · simp [analyzeHandler, hk, h1, h2]

theorem analyzeHandler_parse_failure_500_witness :
    analyzeHandler bodyParseCex (fun _ => none) (fun _ => none) 0
        (some emptyLead) (some "sk-test") true 200 "other body" =
      .jsonErr 500 "Failed to get AI analysis." none :=
  analyzeHandler_parse_failure_500 bodyParseCex (fun _ => none)
    (fun _ => none) 0 emptyLead "sk-test" (by decide) 200 "other body"
    (Or.inr ⟨none, by decide, rfl⟩)

/-- C9: `buildPrompt` embeds the previous-posts block between a prefix and
the fixed tail; the block depends only on the first 10 snippets (so
snippets past the 10th leave it unchanged, with no truncation marker);
for an empty list it is the literal `"No previous posts available"`; and
otherwise it is the numbered list of the first `min(n, 10)` snippets with
numbering starting at 1. -/
theorem buildPrompt_previous_posts (lead : Lead) :
    buildPrompt lead =
      promptLeadSection lead ++ formatPreviousPosts (effectivePosts lead) ++
        ("\n\n" ++ promptTail) ∧
    formatPreviousPosts (effectivePosts lead) =
      formatPreviousPosts ((effectivePosts lead).take 10) ∧
    (effectivePosts lead = [] →
      formatPreviousPosts (effectivePosts lead) =
        "No previous posts available") ∧
    (effectivePosts lead ≠ [] →
      formatPreviousPosts (effectivePosts lead) =
        String.intercalate "\n  "
          (numberPosts 0 ((effectivePosts lead).take 10))) := by
  refine ⟨rfl, ?_, ?_, ?_⟩
  · rcases hl : effectivePosts lead with _ | ⟨p, ps⟩
    · simp [formatPreviousPosts]
    · simp [formatPreviousPosts, List.take_take]
  · intro h
    simp [formatPreviousPosts, h]
  · intro h
    have : (effectivePosts lead).length > 0 := List.length_pos.mpr h
    simp [formatPreviousPosts, this]

/-- A lead carrying eleven previous-post snippets in its fetch results. -/
def leadPosts11 : Lead :=
  { emptyLead with
    fetchResults := some
      { rawData := some
          { posted_at_iso := some "2024-01-01T00:00:00Z",
            postText := some "Grand opening!",
            previousPosts := some
              ["p1", "p2", "p3", "p4", "p5", "p6", "p7", "p8", "p9",
                "p10", "p11"] },
        postText := none, previousPosts := none } }

theorem buildPrompt_previous_posts_witness :
    formatPreviousPosts (effectivePosts leadPosts11) =
      String.intercalate "\n  "
        (numberPosts 0 ((effectivePosts leadPosts11).take 10)) :=
  (buildPrompt_previous_posts leadPosts11).2.2.2 (by decide)

/-- C6: for every three leads under concurrency cap 2 and zero delay, and
every order in which the three analyses can complete (any permutation of
the task indices), the batch result carries index fields `[0, 1, 2]` in
that order, each slot holding its own lead's analysis — in particular even
when `L1`'s analysis completes before `L0`'s. -/
theorem analyzeBatch_ordered (L0 L1 L2 : Lead)
    (analyze : Lead → EnrichedVerdict)
    (completionOrder : List (Fin 3))
    (h : completionOrder.Perm (List.finRange 3)) :
    analyzeBatch 2 0 analyze [L0, L1, L2] completionOrder =
      [(0, some (analyze L0)), (1, some (analyze L1)),
        (2, some (analyze L2))] := by
  have hm : ∀ k : Fin 3, k ∈ completionOrder := fun k =>
    h.mem_iff.mpr (List.mem_finRange k)
  have h0 : (completionOrder.map fun i =>
        (i.val, analyze ([L0, L1, L2].get i))).lookup 0 =
      some (analyze L0) :=
    lookup_writes (fun i : Fin 3 => analyze ([L0, L1, L2].get i))
      completionOrder 0 (hm 0)
  have h1 : (completionOrder.map fun i =>
        (i.val, analyze ([L0, L1, L2].get i))).lookup 1 =
      some (analyze L1) :=
    lookup_writes (fun i : Fin 3 => analyze ([L0, L1, L2].get i))
      completionOrder 1 (hm 1)
  have h2 : (completionOrder.map fun i =>
        (i.val, analyze ([L0, L1, L2].get i))).lookup 2 =
      some (analyze L2) :=
    lookup_writes (fun i : Fin 3 => analyze ([L0, L1, L2].get i))
      completionOrder 2 (hm 2)
  have e : analyzeBatch 2 0 analyze [L0, L1, L2] completionOrder =
      [(0, (completionOrder.map fun i =>
          (i.val, analyze ([L0, L1, L2].get i))).lookup 0),
        (1, (completionOrder.map fun i =>
          (i.val, analyze ([L0, L1, L2].get i))).lookup 1),
        (2, (completionOrder.map fun i =>
          (i.val, analyze ([L0, L1, L2].get i))).lookup 2)] := rfl
  rw [e, h0, h1, h2]

theorem analyzeBatch_ordered_witness :
    analyzeBatch 2 0 (fun l => enrich sampleVerdict
        (calculateLeadFreshness (fun _ => none) 0
          ((l.fetchResults.bind (·.rawData)).bind (·.posted_at_iso))))
      [emptyLead, leadPosts11, emptyLead] ([1, 0, 2] : List (Fin 3)) =
      [(0, some (enrich sampleVerdict
          (calculateLeadFreshness (fun _ => none) 0 none))),
        (1, some (enrich sampleVerdict
          (calculateLeadFreshness (fun _ => none) 0
            (some "2024-01-01T00:00:00Z")))),
        (2, some (enrich sampleVerdict
          (calculateLeadFreshness (fun _ => none) 0 none)))] :=
  analyzeBatch_ordered emptyLead leadPosts11 emptyLead _
    ([1, 0, 2] : List (Fin 3)) (by decide)
